import Mathlib

/-!
Shallow embedding of the snake game in `src/main.rs` (crate `snake`).

Coordinates are `u16` in the source; they are modelled as `Nat`. Every
subtraction performed by the game on coordinates is guarded in the source
(it only subtracts after comparing against the relevant bound), and all
claims are stated on boards and cells where the `Nat` and `u16`
computations agree, so truncated subtraction is faithful there.

Randomness (`rand::rng().random_range`) is modelled by passing the sampled
cells explicitly: `Target::new` receives the cell the RNG produced, and the
resampling loop of `draw_target` receives the stream of future samples as a
list, returning `none` when the stream is exhausted while every candidate
conflicts (the source would keep drawing samples; the spec notes the loop
is unbounded).

Calls that can panic in the source (`body.first().unwrap()` on an empty
body) are modelled as `Option`-valued functions returning `none` there.
-/

namespace SnakeGame

abbrev Cell := Nat × Nat

/-- const MAX_MOVE_DELAY: u64 = 150 -/
def MAX_MOVE_DELAY : Nat := 150

/-- const MIN_MOVE_DELAY: u64 = 50 -/
def MIN_MOVE_DELAY : Nat := 50

/-- enum Direction -/
inductive Direction
  | Up
  | Down
  | Right
  | Left
deriving DecidableEq, Repr

/-- struct Snake -/
structure Snake where
  body : List Cell
  head_dir : Direction
  score : Nat
deriving DecidableEq, Repr

/-- Snake::new: head at the given cell, tail one cell to its right, heading Left. -/
def Snake.new (head_x head_y : Nat) : Snake :=
  { body := [(head_x, head_y), (head_x + 1, head_y)]
    head_dir := Direction.Left
    score := 0 }

/-- struct Target -/
structure Target where
  x : Nat
  y : Nat
deriving DecidableEq, Repr

/-- Target::new draws a random cell in the given inclusive ranges; here the
drawn cell is passed in explicitly. -/
def Target.sample (c : Cell) : Target :=
  { x := c.1, y := c.2 }

/-- struct World (the `stdout` handle carries no game state and is omitted). -/
structure World where
  min_x : Nat
  max_x : Nat
  min_y : Nat
  max_y : Nat
  snake : Snake
  target : Target
  update_target_position : Bool
  game_over : Bool
deriving DecidableEq, Repr

/-- World::new, with the RNG draw of `Target::new(3, max_x - 4, 3, max_y - 4)`
passed in as `tsample`. -/
def World.new (max_x max_y : Nat) (tsample : Cell) : World :=
  { min_x := 2
    max_x := max_x - 2
    min_y := 2
    max_y := max_y - 2
    snake := Snake.new (max_x / 2) (max_y / 2)
    target := Target.sample tsample
    update_target_position := true
    game_over := false }

/-- World::restart, with the RNG draw of `Target::new(3, self.max_x - 2, 3,
self.max_y - 2)` passed in as `tsample`. -/
def World.restart (w : World) (tsample : Cell) : World :=
  { w with
    snake := Snake.new (w.max_x / 2) (w.max_y / 2)
    target := Target.sample tsample
    update_target_position := true
    game_over := false }

/-- The cell computed inside World::snake_new_head from the current head cell
and heading: translate one cell, wrapping at the inner playable boundary. -/
def World.newHead (w : World) (c : Cell) (d : Direction) : Cell :=
  match d with
  | Direction.Up => if c.2 = w.min_y then (c.1, w.max_y - 1) else (c.1, c.2 - 1)
  | Direction.Down => if c.2 = w.max_y - 1 then (c.1, w.min_y + 1) else (c.1, c.2 + 1)
  | Direction.Left => if c.1 = w.min_x then (w.max_x - 1, c.2) else (c.1 - 1, c.2)
  | Direction.Right => if c.1 = w.max_x - 1 then (w.min_x + 1, c.2) else (c.1 + 1, c.2)

/-- World::snake_new_head: insert the newly computed head at the front of the
body. `none` models the `unwrap` panic on an empty body. -/
def World.snake_new_head (w : World) : Option World :=
  match w.snake.body with
  | [] => none
  | h :: _ =>
    some { w with snake := { w.snake with body := w.newHead h w.snake.head_dir :: w.snake.body } }

/-- World::snake_move: snake_new_head followed by `body.pop()` (drop the last
element). -/
def World.snake_move (w : World) : Option World :=
  (w.snake_new_head).map fun w1 =>
    { w1 with snake := { w1.snake with body := w1.snake.body.dropLast } }

/-- World::check_collision: if the head equals the target, insert a second new
head (growth), increment the score and mark the target dirty. -/
def World.check_collision (w : World) : Option World :=
  match w.snake.body with
  | [] => none
  | h :: _ =>
    if h.1 = w.target.x ∧ h.2 = w.target.y then
      (w.snake_new_head).map fun w1 =>
        { w1 with
          snake := { w1.snake with score := w1.snake.score + 1 }
          update_target_position := true }
    else some w

/-- World::check_failure: true iff the head cell occurs again in the rest of
the body. -/
def World.check_failure (w : World) : Option Bool :=
  match w.snake.body with
  | [] => none
  | h :: t => some (decide (h ∈ t))

/-- World::snake_move_delay. -/
def World.snake_move_delay (w : World) : Nat :=
  if w.snake.score > MAX_MOVE_DELAY then MAX_MOVE_DELAY
  else max (MAX_MOVE_DELAY - w.snake.score) MIN_MOVE_DELAY

/-- The conflict test closed over in World::draw_target: does the candidate
target cell coincide with some snake body cell? -/
def hasConflict (body : List Cell) (t : Target) : Bool :=
  decide ((t.x, t.y) ∈ body)

/-- The `while has_conflict` resampling loop of World::draw_target, with the
stream of RNG draws passed as a list; `none` when the stream is exhausted
while every candidate conflicts. -/
def resampleTarget (body : List Cell) : Target → List Cell → Option Target
  | t, [] => if hasConflict body t then none else some t
  | t, s :: rest =>
    if hasConflict body t then resampleTarget body (Target.sample s) rest else some t

/-- World::draw_target (state effect only): when the dirty flag is set,
resample the target until it avoids the body and clear the flag. -/
def World.draw_target (w : World) (samples : List Cell) : Option World :=
  if w.update_target_position then
    (resampleTarget w.snake.body w.target samples).map fun t =>
      { w with target := t, update_target_position := false }
  else some w

/-- World::refresh_screen: when not game over, clear the frame and draw the
status bar, snake and target (the only state effect is that of draw_target;
draw_snake unwraps the first body cell, so an empty body panics, modelled as
`none`). The returned flag records whether the frame was cleared and
redrawn. -/
def World.refresh_screen (w : World) (samples : List Cell) : Option (World × Bool) :=
  if w.game_over then some (w, false)
  else
    match w.snake.body with
    | [] => none
    | _ :: _ => (w.draw_target samples).map fun w1 => (w1, true)

/-- The key presses the game distinguishes: `w`, `a`, `s`, `d`, `q`, Enter,
and anything else. -/
inductive Key
  | charW
  | charA
  | charS
  | charD
  | charQ
  | enter
  | other
deriving DecidableEq, Repr

/-- World::process_keypress, with the polled event passed in (`none` when the
poll timed out) and the RNG draw for a possible restart passed as `rs`.
Returns `none` for the `q` key, which exits the process. -/
def World.process_keypress (w : World) (k : Option Key) (rs : Cell) : Option World :=
  match k with
  | none => some w
  | some Key.charQ => none
  | some Key.charW =>
    some (if w.snake.head_dir ≠ Direction.Down ∧ w.game_over = false then
      { w with snake := { w.snake with head_dir := Direction.Up } } else w)
  | some Key.charA =>
    some (if w.snake.head_dir ≠ Direction.Right ∧ w.game_over = false then
      { w with snake := { w.snake with head_dir := Direction.Left } } else w)
  | some Key.charS =>
    some (if w.snake.head_dir ≠ Direction.Up ∧ w.game_over = false then
      { w with snake := { w.snake with head_dir := Direction.Down } } else w)
  | some Key.charD =>
    some (if w.snake.head_dir ≠ Direction.Left ∧ w.game_over = false then
      { w with snake := { w.snake with head_dir := Direction.Right } } else w)
  | some Key.enter => some (w.restart rs)
  | some Key.other => some w

/-- Render effects observable in one loop iteration: whether the normal frame
was cleared and redrawn, and whether the game-over banner was drawn. -/
structure TickEffects where
  frameCleared : Bool
  drewBanner : Bool
deriving DecidableEq, Repr

/-- Outcome of one iteration of the loop in World::run. -/
inductive TickResult
  | next (w : World) (eff : TickEffects)
  | quit
  | noFreeCell
  | panicked
deriving DecidableEq, Repr

/-- One iteration of the loop in World::run: refresh_screen, process_keypress,
snake_move, draw_failure_banner when check_failure holds (setting game_over),
then check_collision. `quit` models `process::exit` on `q`; `noFreeCell`
models exhaustion of the resampling stream; `panicked` models an `unwrap`
panic. -/
def World.tick (w : World) (k : Option Key) (samples : List Cell) (rs : Cell) : TickResult :=
  match w.refresh_screen samples with
  | none => TickResult.noFreeCell
  | some (w1, cleared) =>
    match w1.process_keypress k rs with
    | none => TickResult.quit
    | some w2 =>
      match w2.snake_move with
      | none => TickResult.panicked
      | some w3 =>
        match w3.check_failure with
        | none => TickResult.panicked
        | some failed =>
          let w4 := if failed then { w3 with game_over := true } else w3
          match w4.check_collision with
          | none => TickResult.panicked
          | some w5 => TickResult.next w5 { frameCleared := cleared, drewBanner := failed }

/-- The direct reverse of a heading (used to state the direction filter). -/
def Direction.opposite : Direction → Direction
  | Direction.Up => Direction.Down
  | Direction.Down => Direction.Up
  | Direction.Left => Direction.Right
  | Direction.Right => Direction.Left

/-- The movement key requesting a given direction (`w`/`a`/`s`/`d`). -/
def moveKey : Direction → Key
  | Direction.Up => Key.charW
  | Direction.Down => Key.charS
  | Direction.Left => Key.charA
  | Direction.Right => Key.charD

/-- A small concrete world used to instantiate theorems: a fresh game on a
20 x 20 terminal, target sampled at (5, 5). Bounds are min 2 / max 18; the
snake starts at (10, 10)-(11, 10) heading Left. -/
def demoWorld : World := World.new 20 20 (5, 5)

/-- A world whose snake has the given score (body and bounds as in
demoWorld), used to evaluate the speed curve. -/
def scoreWorld (sc : Nat) : World :=
  { demoWorld with snake := { demoWorld.snake with score := sc } }

/-- Claim C1 (code_bug evaluation): at score 151 the source returns
MAX_MOVE_DELAY = 150, while the documented curve max(MIN_DELAY, MAX_DELAY -
score) gives 50; the delay at score 150 is 50, so the delay is not
non-increasing and does not stay at MIN_DELAY for scores above
MAX_DELAY - MIN_DELAY. -/
theorem c1_delay_bug :
    (scoreWorld 151).snake_move_delay = 150 ∧
    max MIN_MOVE_DELAY (MAX_MOVE_DELAY - 151) = 50 ∧
    (scoreWorld 150).snake_move_delay = 50 ∧
    ¬ (scoreWorld 151).snake_move_delay ≤ (scoreWorld 150).snake_move_delay := by
  decide

/-- Claim C5: the next-head computation wraps at the inner playable boundary
(Up from min_y lands at max_y - 1, Down from max_y - 1 at min_y + 1, Left
from min_x at max_x - 1, Right from max_x - 1 at min_x + 1), and in every
non-boundary case the cell translates by exactly one along the heading. -/
theorem c5_wraparound (w : World) (x y : Nat)
    (hx1 : w.min_x ≤ x) (_hx2 : x ≤ w.max_x - 1)
    (hy1 : w.min_y ≤ y) (_hy2 : y ≤ w.max_y - 1) :
    w.newHead (x, w.min_y) Direction.Up = (x, w.max_y - 1) ∧
    w.newHead (x, w.max_y - 1) Direction.Down = (x, w.min_y + 1) ∧
    w.newHead (w.min_x, y) Direction.Left = (w.max_x - 1, y) ∧
    w.newHead (w.max_x - 1, y) Direction.Right = (w.min_x + 1, y) ∧
    (y ≠ w.min_y → w.newHead (x, y) Direction.Up = (x, y - 1) ∧ y - 1 + 1 = y) ∧
    (y ≠ w.max_y - 1 → w.newHead (x, y) Direction.Down = (x, y + 1)) ∧
    (x ≠ w.min_x → w.newHead (x, y) Direction.Left = (x - 1, y) ∧ x - 1 + 1 = x) ∧
    (x ≠ w.max_x - 1 → w.newHead (x, y) Direction.Right = (x + 1, y)) := by
  refine ⟨by simp [World.newHead], by simp [World.newHead], by simp [World.newHead],
    by simp [World.newHead], ?_, ?_, ?_, ?_⟩
  · intro h
    exact ⟨by simp [World.newHead, h], by omega⟩
  · intro h
    simp [World.newHead, h]
  · intro h
    exact ⟨by simp [World.newHead, h], by omega⟩
  · intro h
    simp [World.newHead, h]

/-- Witness for C5: the bound hypotheses hold at x = 5, y = 5 on demoWorld,
and the theorem yields both a wrap case and a plain translation there. -/
theorem c5_wraparound_witness :
    (demoWorld.min_x ≤ 5 ∧ 5 ≤ demoWorld.max_x - 1 ∧
      demoWorld.min_y ≤ 5 ∧ 5 ≤ demoWorld.max_y - 1) ∧
    demoWorld.newHead (5, demoWorld.min_y) Direction.Up = (5, demoWorld.max_y - 1) ∧
    demoWorld.newHead (5, 5) Direction.Up = (5, 4) := by
  have h := c5_wraparound demoWorld 5 5 (by decide) (by decide) (by decide) (by decide)
  exact ⟨⟨by decide, by decide, by decide, by decide⟩, h.1, (h.2.2.2.2.1 (by decide)).1⟩

/-- Claim C7: snake_move (plain advance) preserves the body length, and
snake_new_head alone (the growth step used by check_collision when the
target is eaten) increases it by exactly one. -/
theorem c7_lengths (w : World) (h : Cell) (t : List Cell)
    (hb : w.snake.body = h :: t) :
    (∃ w2, w.snake_move = some w2 ∧ w2.snake.body.length = w.snake.body.length) ∧
    (∃ w3, w.snake_new_head = some w3 ∧ w3.snake.body.length = w.snake.body.length + 1) := by
  have hnew : w.snake_new_head =
      some { w with snake := { w.snake with
        body := w.newHead h w.snake.head_dir :: h :: t } } := by
    unfold World.snake_new_head
    rw [hb]
  have hmove : w.snake_move =
      some { w with snake := { w.snake with
        body := (w.newHead h w.snake.head_dir :: h :: t).dropLast } } := by
    simp [World.snake_move, hnew]
  constructor
  · refine ⟨_, hmove, ?_⟩
    simp [hb, List.length_dropLast]
  · refine ⟨_, hnew, ?_⟩
    simp [hb]

/-- Witness for C7 at the concrete demoWorld, whose body is
(10,10) :: [(11,10)]. -/
theorem c7_lengths_witness :
    (∃ w2, demoWorld.snake_move = some w2 ∧
      w2.snake.body.length = demoWorld.snake.body.length) ∧
    (∃ w3, demoWorld.snake_new_head = some w3 ∧
      w3.snake.body.length = demoWorld.snake.body.length + 1) :=
  c7_lengths demoWorld (10, 10) [(11, 10)] rfl

/-- Claim C8: a movement key leaves head_dir unchanged exactly when the
requested direction is the direct reverse of the current heading or the
game is over, and otherwise installs the requested direction. -/
theorem c8_direction_filter (w : World) (d : Direction) (rs : Cell) :
    ∃ w2, w.process_keypress (some (moveKey d)) rs = some w2 ∧
      w2.snake.head_dir =
        if w.snake.head_dir = d.opposite ∨ w.game_over = true then w.snake.head_dir else d := by
  cases d <;>
    simp only [moveKey, World.process_keypress, Direction.opposite, Option.some.injEq] <;>
    refine ⟨_, rfl, ?_⟩ <;>
    split_ifs <;>
    simp_all

/-- Claim C9: check_failure returns true iff the head cell occurs again in
the rest of the body, and returns false on any world whose snake is a
freshly constructed 2-segment Snake::new. -/
theorem c9_check_failure (w : World) (h : Cell) (t : List Cell)
    (hb : w.snake.body = h :: t)
    (v : World) (hx hy : Nat) (hv : v.snake = Snake.new hx hy) :
    ((w.check_failure = some true) ↔ h ∈ t) ∧ v.check_failure = some false := by
  constructor
  · unfold World.check_failure
    rw [hb]
    simp
  · unfold World.check_failure
    rw [hv]
    simp [Snake.new, Prod.ext_iff]

/-- Witness for C9 at demoWorld, whose snake is Snake.new 10 10 with body
(10,10) :: [(11,10)]. -/
theorem c9_check_failure_witness :
    ((demoWorld.check_failure = some true) ↔ ((10, 10) : Cell) ∈ ([((11 : Nat), (10 : Nat))] : List Cell)) ∧
    demoWorld.check_failure = some false :=
  c9_check_failure demoWorld (10, 10) [(11, 10)] rfl demoWorld 10 10 rfl

/-- A fresh game on an 80 x 40 terminal. World::new places the snake head at
(terminal_max_x / 2, terminal_max_y / 2) = (40, 20). -/
def c4Fresh : World := World.new 80 40 (5, 5)

/-- The same world after the game has ended. -/
def c4GameOver : World := { c4Fresh with game_over := true }

/-- Claim C4 counterexample: restarting from GameOver does not reproduce the
fresh-start snake: restart centers on the stored bounds (max 78 / 38 after
the margin), giving head (39, 19), while a fresh start on the same terminal
gives head (40, 20). -/
theorem c4_restart_counterexample :
    (c4GameOver.restart (5, 5)).snake.body = [(39, 19), (40, 19)] ∧
    c4Fresh.snake.body = [(40, 20), (41, 20)] ∧
    (c4GameOver.restart (5, 5)).snake.body ≠ c4Fresh.snake.body := by
  decide

/-- Claim C4 as amended: restart resets the score to 0, the snake to a
2-segment configuration with head at (max_x / 2, max_y / 2) of the stored
board bounds (one cell up-left of the fresh-start position for a terminal of
even dimensions), tail one cell to its right, heading Left, state Playing,
with the board bounds unchanged and the target marked dirty. -/
theorem c4_restart_amended (w : World) (rs : Cell) :
    (w.restart rs).snake.score = 0 ∧
    (w.restart rs).snake.body = [(w.max_x / 2, w.max_y / 2), (w.max_x / 2 + 1, w.max_y / 2)] ∧
    (w.restart rs).snake.head_dir = Direction.Left ∧
    (w.restart rs).game_over = false ∧
    (w.restart rs).min_x = w.min_x ∧ (w.restart rs).max_x = w.max_x ∧
    (w.restart rs).min_y = w.min_y ∧ (w.restart rs).max_y = w.max_y ∧
    (w.restart rs).update_target_position = true := by
  simp [World.restart, Snake.new]

/-- Soundness of the resampling loop: whenever it terminates with a target,
that target conflicts with no body cell. -/
lemma resampleTarget_sound (body : List Cell) (samples : List Cell) :
    ∀ t t2, resampleTarget body t samples = some t2 → hasConflict body t2 = false := by
  induction samples with
  | nil =>
    intro t t2 hr
    unfold resampleTarget at hr
    by_cases hc : hasConflict body t = true
    · simp [hc] at hr
    · simp [hc] at hr
      subst hr
      simpa using hc
  | cons s rest ih =>
    intro t t2 hr
    unfold resampleTarget at hr
    by_cases hc : hasConflict body t = true
    · rw [if_pos hc] at hr
      exact ih _ _ hr
    · rw [if_neg hc] at hr
      obtain rfl : t = t2 := by simpa using hr
      simpa using hc

/-- Progress of the resampling loop: if some candidate among the current
target and the remaining samples avoids the body, the loop terminates. -/
lemma resampleTarget_complete (body : List Cell) (samples : List Cell) :
    ∀ t : Target, (∃ c ∈ (t.x, t.y) :: samples, c ∉ body) →
      ∃ t2, resampleTarget body t samples = some t2 := by
  induction samples with
  | nil =>
    rintro t ⟨c, hcmem, hnb⟩
    have hct : c = (t.x, t.y) := by simpa using hcmem
    subst hct
    have hc : hasConflict body t = false := by simpa [hasConflict] using hnb
    exact ⟨t, by unfold resampleTarget; simp [hc]⟩
  | cons s rest ih =>
    rintro t ⟨c, hcmem, hnb⟩
    by_cases hc : hasConflict body t = true
    · have hnt : c ≠ (t.x, t.y) := by
        intro hq
        subst hq
        simp [hasConflict] at hc
        exact hnb hc
      have hcs : c ∈ ((Target.sample s).x, (Target.sample s).y) :: rest := by
        rcases List.mem_cons.mp hcmem with hq | hq
        · exact absurd hq hnt
        · simpa [Target.sample] using hq
      obtain ⟨t2, ht2⟩ := ih (Target.sample s) ⟨c, hcs, hnb⟩
      exact ⟨t2, by unfold resampleTarget; simp [hc, ht2]⟩
    · exact ⟨t, by unfold resampleTarget; simp [hc]⟩

/-- Claim C6: when the dirty flag is set and some candidate cell (the current
target or one of the future samples) is off the body — which holds on any
non-full board where sampling eventually hits a free cell — the draw_target
pass terminates, clears the flag, leaves the snake unchanged, and yields a
target that coincides with no snake body cell. -/
theorem c6_target_disjoint (w : World) (samples : List Cell)
    (hdirty : w.update_target_position = true)
    (hfree : ∃ c ∈ (w.target.x, w.target.y) :: samples, c ∉ w.snake.body) :
    ∃ w2, w.draw_target samples = some w2 ∧
      (w2.target.x, w2.target.y) ∉ w2.snake.body ∧
      w2.snake = w.snake ∧ w2.update_target_position = false := by
  obtain ⟨t2, ht2⟩ := resampleTarget_complete w.snake.body samples w.target hfree
  have hs := resampleTarget_sound w.snake.body samples w.target t2 ht2
  refine ⟨{ w with target := t2, update_target_position := false }, ?_, ?_, rfl, rfl⟩
  · simp [World.draw_target, hdirty, ht2]
  · simpa [hasConflict] using hs

/-- Witness for C6: on demoWorld (dirty flag set, target (5,5), body away
from it) the pass succeeds with no samples needed. -/
theorem c6_target_disjoint_witness :
    ∃ w2, demoWorld.draw_target [] = some w2 ∧
      (w2.target.x, w2.target.y) ∉ w2.snake.body ∧
      w2.snake = demoWorld.snake ∧ w2.update_target_position = false :=
  c6_target_disjoint demoWorld [] rfl (by decide)

/-- The inner playable rectangle: the cells the snake and its wrapped moves
stay within. -/
def inPlay (w : World) (c : Cell) : Prop :=
  w.min_x ≤ c.1 ∧ c.1 ≤ w.max_x - 1 ∧ w.min_y ≤ c.2 ∧ c.2 ≤ w.max_y - 1

/-- On a board with at least three playable columns and rows, the next-head
computation keeps cells inside the inner playable rectangle. -/
lemma newHead_inPlay (w : World) (c : Cell) (d : Direction)
    (hc : inPlay w c) (hx : w.min_x + 2 < w.max_x) (hy : w.min_y + 2 < w.max_y) :
    inPlay w (w.newHead c d) := by
  obtain ⟨x, y⟩ := c
  unfold inPlay at hc ⊢
  obtain ⟨h1, h2, h3, h4⟩ := hc
  cases d <;> simp only [World.newHead] <;> split_ifs <;> constructor <;> simp <;> omega

/-- On a board with at least three playable columns and rows, a move never
stays in place. -/
lemma newHead_ne_self (w : World) (c : Cell) (d : Direction)
    (hc : inPlay w c) (hx : w.min_x + 2 < w.max_x) (hy : w.min_y + 2 < w.max_y) :
    w.newHead c d ≠ c := by
  obtain ⟨x, y⟩ := c
  unfold inPlay at hc
  obtain ⟨h1, h2, h3, h4⟩ := hc
  cases d <;> simp only [World.newHead] <;> split_ifs <;> simp [Prod.ext_iff] <;> omega

/-- The next-head computation depends only on the board bounds, so replacing
the snake leaves it unchanged. -/
lemma newHead_set_snake (w : World) (s : Snake) (c : Cell) (d : Direction) :
    World.newHead { w with snake := s } c d = w.newHead c d := by
  cases d <;> rfl

/-- Claim C10: on a tick where the moved head equals the target,
check_collision inserts a second newly computed head, so the final head is
the next-head of the next-head of the pre-tick head — one cell beyond the
target along the current heading — and (on a board with at least three
playable columns and rows) is not the target cell itself; the score rises by
one and the body is one longer than before the tick. -/
theorem c10_eat_overshoot (w : World) (h : Cell) (t : List Cell)
    (hb : w.snake.body = h :: t) (hin : inPlay w h)
    (hbx : w.min_x + 2 < w.max_x) (hby : w.min_y + 2 < w.max_y)
    (htar : w.newHead h w.snake.head_dir = (w.target.x, w.target.y)) :
    ∃ w3 w5, w.snake_move = some w3 ∧ w3.check_collision = some w5 ∧
      w5.snake.body.head? =
        some (w.newHead (w.newHead h w.snake.head_dir) w.snake.head_dir) ∧
      w.newHead (w.newHead h w.snake.head_dir) w.snake.head_dir ≠ (w.target.x, w.target.y) ∧
      w5.snake.score = w.snake.score + 1 ∧
      w5.snake.body.length = w.snake.body.length + 1 ∧
      w5.update_target_position = true := by
  have hne : w.newHead (w.newHead h w.snake.head_dir) w.snake.head_dir ≠ (w.target.x, w.target.y) := by
    rw [← htar]
    exact fun hq => newHead_ne_self w _ w.snake.head_dir
      (newHead_inPlay w h w.snake.head_dir hin hbx hby) hbx hby hq
  have hnew : w.snake_new_head =
      some { w with snake := { w.snake with
        body := w.newHead h w.snake.head_dir :: h :: t } } := by
    unfold World.snake_new_head
    rw [hb]
  have hmove : w.snake_move =
      some { w with snake := { w.snake with
        body := w.newHead h w.snake.head_dir :: (h :: t).dropLast } } := by
    simp [World.snake_move, hnew, List.dropLast_cons₂]
  have hcond : (w.newHead h w.snake.head_dir).1 = w.target.x ∧
      (w.newHead h w.snake.head_dir).2 = w.target.y := by
    rw [htar]
    exact ⟨rfl, rfl⟩
  have hcoll : World.check_collision
      { w with snake := { w.snake with
        body := w.newHead h w.snake.head_dir :: (h :: t).dropLast } } =
      some { w with
        snake := { w.snake with
          body := w.newHead (w.newHead h w.snake.head_dir) w.snake.head_dir ::
            w.newHead h w.snake.head_dir :: (h :: t).dropLast
          score := w.snake.score + 1 }
        update_target_position := true } := by
    unfold World.check_collision World.snake_new_head
    simp [hcond, newHead_set_snake]
  refine ⟨_, _, hmove, hcoll, rfl, hne, rfl, ?_, rfl⟩
  simp [hb, List.length_dropLast]

/-- demoWorld with the target moved directly ahead of the snake: heading
Left from (10,10), target at the next head cell (9,10). -/
def c10World : World := { demoWorld with target := { x := 9, y := 10 } }

/-- Witness for C10: demoWorld heading Left from (10,10) with the target
placed at the next head cell (9,10). -/
theorem c10_eat_overshoot_witness :
    ∃ w3 w5, c10World.snake_move = some w3 ∧ w3.check_collision = some w5 ∧
      w5.snake.body.head? =
        some (c10World.newHead (c10World.newHead (10, 10) c10World.snake.head_dir) c10World.snake.head_dir) ∧
      c10World.newHead (c10World.newHead (10, 10) c10World.snake.head_dir) c10World.snake.head_dir ≠
        (c10World.target.x, c10World.target.y) ∧
      w5.snake.score = c10World.snake.score + 1 ∧
      w5.snake.body.length = c10World.snake.body.length + 1 ∧
      w5.update_target_position = true :=
  c10_eat_overshoot c10World (10, 10) [(11, 10)] rfl
    (by unfold inPlay; decide) (by decide) (by decide) (by decide)

/-- The next-head computation also ignores a simultaneous game_over update. -/
lemma newHead_set_snake_go (w : World) (s : Snake) (b : Bool) (c : Cell) (d : Direction) :
    World.newHead { w with snake := s, game_over := b } c d = w.newHead c d := by
  cases d <;> rfl

/-- A mid-game position about to eat the target: body
(10,10),(10,11),(9,11),(8,11),(8,10),(8,9) heading Left (score 4), target at
(9,10). Moving left puts the head on the target; the growth head (8,10) then
lands on the body cell (8,10), so the post-growth body is self-colliding. -/
def c2World : World :=
  { min_x := 2, max_x := 20, min_y := 2, max_y := 20
    snake := { body := [(10, 10), (10, 11), (9, 11), (8, 11), (8, 10), (8, 9)]
               head_dir := Direction.Left, score := 4 }
    target := { x := 9, y := 10 }
    update_target_position := false
    game_over := false }

/-- The state the source produces from c2World after one tick. -/
def c2After : World :=
  { c2World with
    snake := { body := [(8, 10), (9, 10), (10, 10), (10, 11), (9, 11), (8, 11), (8, 10)]
               head_dir := Direction.Left, score := 5 }
    update_target_position := true }

/-- Claim C2 counterexample: on c2World the tick grows through the target and
ends with a body whose head reappears in its tail (check_failure holds on the
post-tick body), yet the tick raised no game over and drew no banner — so
the self-collision check did not act on the body resulting from the growth
of that tick; it ran before the growth, on the pre-growth body. -/
theorem c2_order_counterexample :
    c2World.tick none [] (0, 0) =
      TickResult.next c2After { frameCleared := true, drewBanner := false } ∧
    c2After.check_failure = some true ∧
    c2After.game_over = false := by
  decide

/-- Claim C2 as amended: within one tick the order is compute the new head,
then check self-collision on the moved but pre-growth body, then check the
head against the target (growing if equal): the banner flag and the game_over
flag equal the self-collision test of the moved head against the pre-growth
moved tail, and the growth (when the moved head equals the target) is applied
afterwards without affecting that decision. -/
theorem c2_order_amended (w : World) (h : Cell) (t : List Cell)
    (samples : List Cell) (rs : Cell)
    (hb : w.snake.body = h :: t)
    (hgo : w.game_over = false)
    (hupd : w.update_target_position = false) :
    ∃ wfin,
      w.tick none samples rs = TickResult.next wfin
        { frameCleared := true
          drewBanner := decide (w.newHead h w.snake.head_dir ∈ (h :: t).dropLast) } ∧
      wfin.game_over = decide (w.newHead h w.snake.head_dir ∈ (h :: t).dropLast) ∧
      wfin.snake.head_dir = w.snake.head_dir ∧
      wfin.snake.body =
        (if w.newHead h w.snake.head_dir = (w.target.x, w.target.y) then
          w.newHead (w.newHead h w.snake.head_dir) w.snake.head_dir ::
            w.newHead h w.snake.head_dir :: (h :: t).dropLast
        else w.newHead h w.snake.head_dir :: (h :: t).dropLast) := by
  have hrefresh : w.refresh_screen samples = some (w, true) := by
    unfold World.refresh_screen World.draw_target
    rw [hb]
    simp [hgo, hupd]
  have hkey : w.process_keypress none rs = some w := rfl
  have hnew : w.snake_new_head =
      some { w with snake := { w.snake with
        body := w.newHead h w.snake.head_dir :: h :: t } } := by
    unfold World.snake_new_head
    rw [hb]
  have hmove : w.snake_move =
      some { w with snake := { w.snake with
        body := w.newHead h w.snake.head_dir :: (h :: t).dropLast } } := by
    simp [World.snake_move, hnew, List.dropLast_cons₂]
  have hfail : World.check_failure
      { w with snake := { w.snake with
        body := w.newHead h w.snake.head_dir :: (h :: t).dropLast } } =
      some (decide (w.newHead h w.snake.head_dir ∈ (h :: t).dropLast)) := rfl
  have hcnd : ∀ v : World, ((w.newHead h w.snake.head_dir).1 = v.target.x ∧
      (w.newHead h w.snake.head_dir).2 = v.target.y) ↔
      w.newHead h w.snake.head_dir = (v.target.x, v.target.y) := by
    intro v
    rw [Prod.ext_iff]
  unfold World.tick
  rw [hrefresh]
  simp only [hkey, hmove, hfail]
  by_cases hmem : w.newHead h w.snake.head_dir ∈ (h :: t).dropLast
  · by_cases htgt : w.newHead h w.snake.head_dir = (w.target.x, w.target.y)
    · rw [htgt] at hmem
      unfold World.check_collision World.snake_new_head
      simp [hcnd, htgt, hmem, hgo, newHead_set_snake, newHead_set_snake_go]
    · unfold World.check_collision World.snake_new_head
      simp [hcnd, htgt, hmem, hgo, newHead_set_snake, newHead_set_snake_go]
  · by_cases htgt : w.newHead h w.snake.head_dir = (w.target.x, w.target.y)
    · rw [htgt] at hmem
      unfold World.check_collision World.snake_new_head
      simp [hcnd, htgt, hmem, hgo, newHead_set_snake, newHead_set_snake_go]
    · unfold World.check_collision World.snake_new_head
      simp [hcnd, htgt, hmem, hgo, newHead_set_snake, newHead_set_snake_go]

/-- demoWorld with the dirty flag cleared, used to instantiate the amended
C2 ordering theorem. -/
def c2Simple : World := { demoWorld with update_target_position := false }

/-- Witness for the amended C2 theorem at the concrete world c2Simple. -/
theorem c2_order_amended_witness :
    ∃ wfin,
      c2Simple.tick none [] (0, 0) = TickResult.next wfin
        { frameCleared := true
          drewBanner := decide (c2Simple.newHead (10, 10) c2Simple.snake.head_dir ∈
            ([(10, 10), (11, 10)] : List Cell).dropLast) } ∧
      wfin.game_over = decide (c2Simple.newHead (10, 10) c2Simple.snake.head_dir ∈
        ([(10, 10), (11, 10)] : List Cell).dropLast) ∧
      wfin.snake.head_dir = c2Simple.snake.head_dir ∧
      wfin.snake.body =
        (if c2Simple.newHead (10, 10) c2Simple.snake.head_dir =
            (c2Simple.target.x, c2Simple.target.y) then
          c2Simple.newHead (c2Simple.newHead (10, 10) c2Simple.snake.head_dir)
              c2Simple.snake.head_dir ::
            c2Simple.newHead (10, 10) c2Simple.snake.head_dir ::
              ([(10, 10), (11, 10)] : List Cell).dropLast
        else c2Simple.newHead (10, 10) c2Simple.snake.head_dir ::
          ([(10, 10), (11, 10)] : List Cell).dropLast) :=
  c2_order_amended c2Simple (10, 10) [(11, 10)] [] (0, 0) rfl rfl rfl

/-- A GameOver state: the banner has been shown, the snake sits at
(10,10)-(11,10) heading Left with score 7, target parked at (5,5). -/
def c3World : World :=
  { min_x := 2, max_x := 20, min_y := 2, max_y := 20
    snake := { body := [(10, 10), (11, 10)], head_dir := Direction.Left, score := 7 }
    target := { x := 5, y := 5 }
    update_target_position := false
    game_over := true }

/-- The state the source produces from c3World after one more loop iteration
with no input: the body has been advanced even though the game is over. -/
def c3After : World :=
  { c3World with
    snake := { body := [(9, 10), (10, 10)], head_dir := Direction.Left, score := 7 } }

/-- Claim C3 counterexample: in the GameOver state c3World, one loop
iteration with no input draws nothing (no frame clear, no banner) but does
not leave the snake body unchanged: the body is still advanced by one cell. -/
theorem c3_freeze_counterexample :
    c3World.tick none [] (0, 0) =
      TickResult.next c3After { frameCleared := false, drewBanner := false } ∧
    c3After.snake.body ≠ c3World.snake.body := by
  decide

/-- Claim C3 as amended: while in GameOver with no Restart (and no quit),
an iteration performs no frame clear or normal-frame redraw, leaves the
heading unchanged and the game-over flag set, and leaves score, target and
the dirty flag unchanged when the advanced head misses the target — but the
snake body is still advanced by one cell each iteration (growing through the
target if the advanced head lands on it), and the banner is drawn again on
iterations where the advanced body self-collides. -/
theorem c3_gameover_amended (w : World) (h : Cell) (t : List Cell) (k : Option Key)
    (samples : List Cell) (rs : Cell)
    (hb : w.snake.body = h :: t)
    (hgo : w.game_over = true)
    (hk1 : k ≠ some Key.enter) (hk2 : k ≠ some Key.charQ) :
    ∃ wfin,
      w.tick k samples rs = TickResult.next wfin
        { frameCleared := false
          drewBanner := decide (w.newHead h w.snake.head_dir ∈ (h :: t).dropLast) } ∧
      wfin.game_over = true ∧
      wfin.snake.head_dir = w.snake.head_dir ∧
      wfin.snake.body =
        (if w.newHead h w.snake.head_dir = (w.target.x, w.target.y) then
          w.newHead (w.newHead h w.snake.head_dir) w.snake.head_dir ::
            w.newHead h w.snake.head_dir :: (h :: t).dropLast
        else w.newHead h w.snake.head_dir :: (h :: t).dropLast) ∧
      (w.newHead h w.snake.head_dir ≠ (w.target.x, w.target.y) →
        wfin.snake.score = w.snake.score ∧ wfin.target = w.target ∧
        wfin.update_target_position = w.update_target_position) := by
  have hrefresh : w.refresh_screen samples = some (w, false) := by
    unfold World.refresh_screen
    simp [hgo]
  have hkey : w.process_keypress k rs = some w := by
    cases k with
    | none => rfl
    | some key =>
      cases key
      · simp [World.process_keypress, hgo]
      · simp [World.process_keypress, hgo]
      · simp [World.process_keypress, hgo]
      · simp [World.process_keypress, hgo]
      · exact absurd rfl hk2
      · exact absurd rfl hk1
      · rfl
  have hnew : w.snake_new_head =
      some { w with snake := { w.snake with
        body := w.newHead h w.snake.head_dir :: h :: t } } := by
    unfold World.snake_new_head
    rw [hb]
  have hmove : w.snake_move =
      some { w with snake := { w.snake with
        body := w.newHead h w.snake.head_dir :: (h :: t).dropLast } } := by
    simp [World.snake_move, hnew, List.dropLast_cons₂]
  have hfail : World.check_failure
      { w with snake := { w.snake with
        body := w.newHead h w.snake.head_dir :: (h :: t).dropLast } } =
      some (decide (w.newHead h w.snake.head_dir ∈ (h :: t).dropLast)) := rfl
  have hcnd : ∀ v : World, ((w.newHead h w.snake.head_dir).1 = v.target.x ∧
      (w.newHead h w.snake.head_dir).2 = v.target.y) ↔
      w.newHead h w.snake.head_dir = (v.target.x, v.target.y) := by
    intro v
    rw [Prod.ext_iff]
  unfold World.tick
  rw [hrefresh]
  simp only [hkey, hmove, hfail]
  by_cases hmem : w.newHead h w.snake.head_dir ∈ (h :: t).dropLast
  · by_cases htgt : w.newHead h w.snake.head_dir = (w.target.x, w.target.y)
    · rw [htgt] at hmem
      unfold World.check_collision World.snake_new_head
      simp [hcnd, htgt, hmem, hgo, newHead_set_snake, newHead_set_snake_go]
    · unfold World.check_collision World.snake_new_head
      simp [hcnd, htgt, hmem, hgo, newHead_set_snake, newHead_set_snake_go]
  · by_cases htgt : w.newHead h w.snake.head_dir = (w.target.x, w.target.y)
    · rw [htgt] at hmem
      unfold World.check_collision World.snake_new_head
      simp [hcnd, htgt, hmem, hgo, newHead_set_snake, newHead_set_snake_go]
    · unfold World.check_collision World.snake_new_head
      simp [hcnd, htgt, hmem, hgo, newHead_set_snake, newHead_set_snake_go]

/-- Witness for the amended C3 theorem at the concrete GameOver world
c3World with no input. -/
theorem c3_gameover_amended_witness :
    ∃ wfin,
      c3World.tick none [] (0, 0) = TickResult.next wfin
        { frameCleared := false
          drewBanner := decide (c3World.newHead (10, 10) c3World.snake.head_dir ∈
            ([(10, 10), (11, 10)] : List Cell).dropLast) } ∧
      wfin.game_over = true ∧
      wfin.snake.head_dir = c3World.snake.head_dir ∧
      wfin.snake.body =
        (if c3World.newHead (10, 10) c3World.snake.head_dir =
            (c3World.target.x, c3World.target.y) then
          c3World.newHead (c3World.newHead (10, 10) c3World.snake.head_dir)
              c3World.snake.head_dir ::
            c3World.newHead (10, 10) c3World.snake.head_dir ::
              ([(10, 10), (11, 10)] : List Cell).dropLast
        else c3World.newHead (10, 10) c3World.snake.head_dir ::
          ([(10, 10), (11, 10)] : List Cell).dropLast) ∧
      (c3World.newHead (10, 10) c3World.snake.head_dir ≠
          (c3World.target.x, c3World.target.y) →
        wfin.snake.score = c3World.snake.score ∧ wfin.target = c3World.target ∧
        wfin.update_target_position = c3World.update_target_position) :=
  c3_gameover_amended c3World (10, 10) [(11, 10)] none [] (0, 0) rfl rfl
    (by decide) (by decide)

end SnakeGame
